import Mathlib

/-!
Verification of `src/scripts/download_artifacts.py`, the CI artifact
download-and-compare orchestrator.

The script is embedded shallowly: its pure name-generation logic becomes
Lean functions over `String`; its filesystem and network effects become
explicit state passing over an `FS` record threaded through an `Except`
monad, parameterized by an `Env` of collaborator oracles (the GitHub
artifact store, the download transport, the baseline resolver from
`get_most_recent_ci_hash.py` and the comparator from
`compare_testsuite_log.py`, the last two being repository modules that
only the orchestrator sees through their call interfaces).
-/

namespace DownloadArtifacts

/-- One step of Python `str.format` scanning: each `\x7b\x7d` placeholder is
replaced, left to right, by the next argument; replacements are spliced
verbatim and never re-scanned (Python semantics). Characters outside a
placeholder pass through unchanged. -/
def pyFormatChars : List Char → List String → List Char
  | [], _ => []
  | '\x7b' :: '\x7d' :: rest, a :: args => a.data ++ pyFormatChars rest args
  | c :: rest, args => c :: pyFormatChars rest args

/-- Python `s.format(*args)` for format strings whose only directives are
bare `\x7b\x7d` placeholders (the only shape used by the script). -/
def pyFormat (s : String) (args : List String) : String :=
  ⟨pyFormatChars s.data args⟩

/-- Number of `\x7b\x7d` placeholders in a character list, counted the way
Python's format scanner consumes them (non-overlapping, left to right). -/
def countPlaceholders : List Char → Nat
  | '\x7b' :: '\x7d' :: rest => countPlaceholders rest + 1
  | _ :: rest => countPlaceholders rest
  | [] => 0

/-- `leadsWith n h` is true iff `n` is an initial segment of `h`. -/
def leadsWith : List Char → List Char → Bool
  | [], _ => true
  | _ :: _, [] => false
  | a :: as, b :: bs => a == b && leadsWith as bs

/-- Python's substring test `needle in haystack` on character lists. -/
def containsSub (needle : List Char) : List Char → Bool
  | [] => needle.isEmpty
  | c :: rest => leadsWith needle (c :: rest) || containsSub needle rest

/-- `libc` table from `get_possible_artifact_names`. -/
def libc : List String := ["gcc-linux", "gcc-newlib"]

/-- `arch` table from `get_possible_artifact_names`: each pattern carries two
placeholders, one for the extension and one left for the commit hash. -/
def arch : List String := ["rv32\x7b\x7d-ilp32d-\x7b\x7d", "rv64\x7b\x7d-lp64d-\x7b\x7d"]

/-- `multilib` table from `get_possible_artifact_names`. -/
def multilib : List String := ["multilib", "non-multilib"]

/-- `arch_extensions` table from `get_possible_artifact_names`. -/
def arch_extensions : List String := ["gc"]

/-- The `all_lists` comprehension: `"-".join([i, j, k])` over the three
tables, guarded by `not ("rv32" in j and k == "multilib")`. -/
def all_lists : List String :=
  libc.flatMap fun i =>
    arch.flatMap fun j =>
      multilib.flatMap fun k =>
        if containsSub "rv32".data j.data && k == "multilib" then []
        else [String.intercalate "-" [i, j, k]]

/-- `get_possible_artifact_names`: renders every surviving combination with
`name.format(ext, "\x7b\x7d")`, filling the extension placeholder and leaving
one placeholder for the commit hash. -/
def get_possible_artifact_names : List String :=
  all_lists.flatMap fun name =>
    arch_extensions.map fun ext => pyFormat name [ext, "\x7b\x7d"]

/-- Full cross-product of the configuration table, before any exclusion. -/
def all_combinations : List (String × String × String) :=
  libc.flatMap fun i => arch.flatMap fun j => multilib.map fun k => (i, j, k)

/-- Rendering of one configuration triple into an artifact name template. -/
def render_combination (t : String × String × String) (ext : String) : String :=
  pyFormat (String.intercalate "-" [t.1, t.2.1, t.2.2]) [ext, "\x7b\x7d"]

/-- Spec-side description of the generator used for comparison with the
source definition: the full cross-product of the configuration table,
minus exactly the combinations pairing the 32-bit architecture with
multilib mode, each rendered as a template. -/
def spec_artifact_names : List String :=
  ((all_combinations.filter fun t =>
      !(containsSub "rv32".data t.2.1.data && t.2.2 == "multilib")).flatMap
    fun t => arch_extensions.map fun ext => render_combination t ext)

/-- Local filesystem state touched by the script: the three append-only
failure files under `./logs/`, the downloaded log files, the summary files,
plus a trace of comparator invocations (argument tuples, in order), which
lets theorems speak about how the comparator was called. -/
structure FS where
  failedBuild : List String := []
  failedTestsuite : List String := []
  noBaseline : List String := []
  logs : List String := []
  summaries : List String := []
  calls : List (String × String × String × String × String) := []
  deriving DecidableEq

/-- Collaborators of the orchestrator, abstracted as oracles.

`store name` is the page-0 record list of `repo.get_artifacts(name)`, as
the list of record ids (GitHub ids are naturals).

`download name id` is the outcome of `download_artifact name id token`
seen from the orchestrator: success, or a propagated exception.

`baseline template` — Modelled from the spec: `get_valid_artifact_hash`
lives in `get_most_recent_ci_hash.py`, which is not under `src/`; per the
spec it returns the `(hash, id)` of the nearest usable ancestor or the
sentinel hash `"No valid hash"` on exhaustion. The orchestrator only
branches on that sentinel, so an oracle returning the pair is faithful.

`comparator` — Modelled from the spec: `compare_logs` lives in
`compare_testsuite_log.py`, which is not under `src/`; per the spec it
writes the summary file at its fifth argument on success and fails with a
value-or-runtime error on malformed or incomparable logs. -/
structure Env where
  store : String → List Nat
  download : String → Int → Except String Unit
  baseline : String → String × Int
  comparator : String → String → String → String → String → Except String Unit

/-- `check_artifact_exists(artifact_name, repo)`: queries page 0 for the
build artifact and for the `-report.log` report artifact; appends a
`failed_build.txt` line when the build artifact is absent, appends a
`failed_testsuite.txt` line when the report is absent but the build was
found, returns `-1` when the report is absent and otherwise the report
artifact's id. -/
def check_artifact_exists (artifact_name : String) (env : Env) (fs : FS) : Int × FS :=
  let build_name := artifact_name
  let build_failed := (env.store artifact_name).length = 0
  let fs1 :=
    if build_failed then
      { fs with failedBuild := fs.failedBuild ++ [build_name ++ "|Check logs"] }
    else fs
  match env.store (artifact_name ++ "-report.log") with
  | [] =>
    let fs2 :=
      if build_failed then fs1
      else
        { fs1 with
            failedTestsuite :=
              fs1.failedTestsuite ++ [build_name ++ "|Cannot find testsuite artifact"] }
    (-1, fs2)
  | i :: _ => ((i : Int), fs1)

/-- Body of a downloaded artifact archive: either a valid zip archive whose
member file names are listed, or a non-archive body such as the JSON error
document the GitHub artifacts endpoint returns on a non-success status. -/
inductive Content where
  | zipArchive (entries : List String)
  | errorDoc (body : String)
  deriving DecidableEq

/-- HTTP response as `requests.get` returns it: a status code and a body.
A raised network exception is the `.error` case of the `fetch` argument
below, mirroring `requests` raising before any response exists. -/
structure HttpResponse where
  status : Nat
  content : Content
  deriving DecidableEq

/-- `ZipFile(...).extractall`: succeeds on a valid archive, raises
`BadZipFile` on any other body. -/
def zip_extractall : Content → Except String (List String)
  | .zipArchive entries => .ok entries
  | .errorDoc _ => .error "BadZipFile: File is not a zip file"

/-- `download_artifact(artifact_name, artifact_id, token)` given the result
of its one HTTP request. The body is written to disk and extracted
unconditionally — the status code is printed but never checked — and then
`os.rename` moves the expected log out of the staging directory, raising
`FileNotFoundError` when the archive did not contain it. The function
installs no exception handler, so every failure propagates to the caller. -/
def download_artifact (artifact_name : String)
    (fetch : Except String HttpResponse) : Except String Unit :=
  match fetch with
  | .error e => .error e
  | .ok r =>
    match zip_extractall r.content with
    | .error e => .error e
    | .ok entries =>
      if artifact_name ∈ entries then .ok ()
      else .error ("FileNotFoundError: " ++ artifact_name)

/-- The orchestrator's view of one `download_artifact` call: on success the
extracted log lands at `./logs/<name>`; on failure the exception
propagates. -/
def run_download (name : String) (id : Int) (env : Env) (fs : FS) : Except String FS :=
  match env.download name id with
  | .error e => .error e
  | .ok _ => .ok { fs with logs := fs.logs ++ ["./logs/" ++ name] }

/-- One `try: compare_logs(...) except (RuntimeError, ValueError)` block of
the orchestrator: the invocation is recorded, then either the summary file
is written (success) or a `failed_testsuite.txt` line
`<artifact>|<error>` is appended (caught error). -/
def run_compare (env : Env) (artifact : String)
    (base_hash base_path current_hash current_path compare_path : String)
    (fs : FS) : FS :=
  let fs1 :=
    { fs with calls := fs.calls ++ [(base_hash, base_path, current_hash, current_path, compare_path)] }
  match env.comparator base_hash base_path current_hash current_path compare_path with
  | .ok _ => { fs1 with summaries := fs1.summaries ++ [compare_path] }
  | .error err =>
    { fs1 with failedTestsuite := fs1.failedTestsuite ++ [artifact ++ "|" ++ err] }

/-- One iteration of the loop in `download_and_compare_all_artifacts`, for a
single template from `get_possible_artifact_names`. A `continue` is an
`.ok` early return; an uncaught exception is an `.error`, aborting the
whole run. -/
def process_artifact (current_hash : String) (env : Env) (fs : FS)
    (artifact_name : String) : Except String FS :=
  let artifact := pyFormat artifact_name [current_hash]
  let checked := check_artifact_exists artifact env fs
  let artifact_id := checked.1
  let fs1 := checked.2
  if artifact_id = -1 then .ok fs1
  else
    let compare_path := "./summaries/" ++ (artifact ++ "-report-summary.md")
    let artifact := artifact ++ "-report.log"
    let artifact_name := artifact_name ++ "-report.log"
    match run_download artifact artifact_id env fs1 with
    | .error e => .error e
    | .ok fs2 =>
      let found := env.baseline artifact_name
      let base_hash := found.1
      let base_id := found.2
      if base_hash = "No valid hash" then
        let fs3 := { fs2 with noBaseline := fs2.noBaseline ++ [artifact] }
        let base_hash := current_hash ++ "-no-baseline"
        .ok (run_compare env artifact base_hash ("./logs/" ++ artifact) base_hash
              ("./logs/" ++ artifact) compare_path fs3)
      else
        match run_download (pyFormat artifact_name [base_hash]) base_id env fs2 with
        | .error e => .error e
        | .ok fs4 =>
          .ok (run_compare env artifact base_hash
                ("./logs/" ++ pyFormat artifact_name [base_hash]) current_hash
                ("./logs/" ++ artifact) compare_path fs4)

/-- `download_and_compare_all_artifacts(current_hash, token)`: folds
`process_artifact` over every generated template, starting from empty
local state. (`gcc_hashes(current_hash, False)` is consumed only inside
the baseline resolver, hence lives inside `env.baseline`.) -/
def download_and_compare_all_artifacts (current_hash : String) (env : Env) :
    Except String FS :=
  get_possible_artifact_names.foldlM (fun fs name => process_artifact current_hash env fs name) {}

/-- The `<artifact-name>|<reason>` line shape claimed for failure records. -/
def pipeForm (s : String) : Prop := ∃ n r, s = n ++ "|" ++ r

/-- Total number of outcomes recorded in the local state: failure lines in
the three failure files plus summary files written. -/
def outcome_total (fs : FS) : Nat :=
  fs.failedBuild.length + fs.failedTestsuite.length + fs.noBaseline.length + fs.summaries.length

/-- Whether a recorded line or path mentions the given artifact name (Python
substring test), used to count the outcomes attributable to one artifact. -/
def mentions (artifact line : String) : Bool :=
  containsSub artifact.data line.data

/-- Number of outcomes attributable to one artifact: failure lines in any of
the three failure files naming it, plus summary files whose path names it. -/
def outcome_count (fs : FS) (artifact : String) : Nat :=
  (fs.failedBuild.filter (mentions artifact)).length +
  (fs.failedTestsuite.filter (mentions artifact)).length +
  (fs.noBaseline.filter (mentions artifact)).length +
  (fs.summaries.filter (mentions artifact)).length

/-- First template produced by `get_possible_artifact_names`. -/
def tpl1 : String := "gcc-linux-rv32gc-ilp32d-\x7b\x7d-non-multilib"

/-- Store in which both page-0 queries for the first template at commit
`abc123` succeed, the baseline resolver is exhausted (sentinel), and the
comparator fails with `boom` on every input. -/
def envC1 : Env :=
  { store := fun n =>
      if n = "gcc-linux-rv32gc-ilp32d-abc123-non-multilib" ∨
         n = "gcc-linux-rv32gc-ilp32d-abc123-non-multilib-report.log" then [7] else []
    download := fun _ _ => .ok ()
    baseline := fun _ => ("No valid hash", -1)
    comparator := fun _ _ _ _ _ => .error "boom" }

/-- Store in which every artifact exists (id 7), the baseline resolver
finds `def456` (id 9), downloads succeed and the comparator succeeds. -/
def env_all : Env :=
  { store := fun _ => [7]
    download := fun _ _ => .ok ()
    baseline := fun _ => ("def456", 9)
    comparator := fun _ _ _ _ _ => .ok () }

/-- Store in which no artifact exists at all. -/
def env_empty : Env :=
  { store := fun _ => []
    download := fun _ _ => .ok ()
    baseline := fun _ => ("No valid hash", -1)
    comparator := fun _ _ _ _ _ => .ok () }

/-- Store in which the build artifact `X` is absent on page 0 while the
report artifact `X-report.log` is present (id 5). -/
def envC10 : Env :=
  { store := fun n => if n = "X-report.log" then [5] else []
    download := fun _ _ => .ok ()
    baseline := fun _ => ("No valid hash", -1)
    comparator := fun _ _ _ _ _ => .ok () }

/-- State produced by processing the first template at commit `abc123`
under `envC1`: a `no_baseline.txt` line and a `failed_testsuite.txt` line
for the same artifact, one recorded comparator call, no summary. -/
def fsC1 : FS :=
  { failedBuild := []
    failedTestsuite := ["gcc-linux-rv32gc-ilp32d-abc123-non-multilib-report.log|boom"]
    noBaseline := ["gcc-linux-rv32gc-ilp32d-abc123-non-multilib-report.log"]
    logs := ["./logs/gcc-linux-rv32gc-ilp32d-abc123-non-multilib-report.log"]
    summaries := []
    calls := [("abc123-no-baseline",
               "./logs/gcc-linux-rv32gc-ilp32d-abc123-non-multilib-report.log",
               "abc123-no-baseline",
               "./logs/gcc-linux-rv32gc-ilp32d-abc123-non-multilib-report.log",
               "./summaries/gcc-linux-rv32gc-ilp32d-abc123-non-multilib-report-summary.md")] }

/-! Helper lemmas about the individual steps, shared by the claim theorems. -/

theorem pipeForm_pipe_mem (s : String) (h : pipeForm s) : '|' ∈ s.data := by
  obtain ⟨n, r, rfl⟩ := h
  simp [String.data_append]

theorem check_fields (nm : String) (env : Env) (g : FS) :
    ((check_artifact_exists nm env g).2.failedBuild = g.failedBuild ∨
       (check_artifact_exists nm env g).2.failedBuild = g.failedBuild ++ [nm ++ "|Check logs"]) ∧
    ((check_artifact_exists nm env g).2.failedTestsuite = g.failedTestsuite ∨
       (check_artifact_exists nm env g).2.failedTestsuite
         = g.failedTestsuite ++ [nm ++ "|Cannot find testsuite artifact"]) ∧
    (check_artifact_exists nm env g).2.noBaseline = g.noBaseline ∧
    (check_artifact_exists nm env g).2.summaries = g.summaries := by
  simp only [check_artifact_exists]
  cases env.store (nm ++ "-report.log") <;> by_cases hb : (env.store nm).length = 0 <;> simp [hb]

theorem check_found_testsuite (nm : String) (env : Env) (g : FS)
    (hns : (check_artifact_exists nm env g).1 ≠ -1) :
    (check_artifact_exists nm env g).2.failedTestsuite = g.failedTestsuite := by
  simp only [check_artifact_exists] at hns ⊢
  revert hns
  cases env.store (nm ++ "-report.log") with
  | nil => by_cases hb : (env.store nm).length = 0 <;> simp [hb]
  | cons i rest =>
    intro hns
    by_cases hb : (env.store nm).length = 0 <;> simp [hb]

theorem check_outcome_mono (nm : String) (env : Env) (g : FS) :
    outcome_total g ≤ outcome_total (check_artifact_exists nm env g).2 := by
  simp only [check_artifact_exists]
  cases env.store (nm ++ "-report.log") <;> by_cases hb : (env.store nm).length = 0 <;>
    simp [hb, outcome_total] <;> omega

theorem check_sentinel_outcome (nm : String) (env : Env) (g : FS)
    (hs : (check_artifact_exists nm env g).1 = -1) :
    outcome_total g + 1 ≤ outcome_total (check_artifact_exists nm env g).2 := by
  simp only [check_artifact_exists] at hs ⊢
  revert hs
  cases env.store (nm ++ "-report.log") with
  | nil =>
    intro hs
    by_cases hb : (env.store nm).length = 0 <;> simp [hb, outcome_total] <;> omega
  | cons i rest =>
    intro hs
    by_cases hb : (env.store nm).length = 0 <;> simp [hb] at hs <;> omega

theorem run_download_fields (nm : String) (id : Int) (env : Env) (g g' : FS)
    (h : run_download nm id env g = .ok g') :
    g'.failedBuild = g.failedBuild ∧ g'.failedTestsuite = g.failedTestsuite ∧
    g'.noBaseline = g.noBaseline ∧ g'.summaries = g.summaries := by
  unfold run_download at h
  cases hd : env.download nm id <;> rw [hd] at h <;> simp at h
  subst h
  exact ⟨rfl, rfl, rfl, rfl⟩

theorem run_compare_fields (env : Env) (a b c d e f : String) (g : FS) :
    (run_compare env a b c d e f g).failedBuild = g.failedBuild ∧
    (run_compare env a b c d e f g).noBaseline = g.noBaseline ∧
    ((run_compare env a b c d e f g).failedTestsuite = g.failedTestsuite ∨
       ∃ err, (run_compare env a b c d e f g).failedTestsuite
                = g.failedTestsuite ++ [a ++ "|" ++ err]) := by
  unfold run_compare
  cases env.comparator b c d e f <;> simp

theorem run_compare_outcome (env : Env) (a b c d e f : String) (g : FS) :
    outcome_total (run_compare env a b c d e f g) = outcome_total g + 1 := by
  unfold run_compare
  cases env.comparator b c d e f <;> simp [outcome_total] <;> omega

theorem process_artifact_fields (cur : String) (env : Env) (fs fs' : FS) (name : String)
    (h : process_artifact cur env fs name = .ok fs') :
    (fs'.failedBuild = fs.failedBuild ∨
       fs'.failedBuild = fs.failedBuild ++ [pyFormat name [cur] ++ "|Check logs"]) ∧
    (fs'.failedTestsuite = fs.failedTestsuite ∨
       fs'.failedTestsuite = fs.failedTestsuite ++ [pyFormat name [cur] ++ "|Cannot find testsuite artifact"] ∨
       ∃ err, fs'.failedTestsuite
                = fs.failedTestsuite ++ [(pyFormat name [cur] ++ "-report.log") ++ "|" ++ err]) ∧
    (fs'.noBaseline = fs.noBaseline ∨
       fs'.noBaseline = fs.noBaseline ++ [pyFormat name [cur] ++ "-report.log"]) ∧
    outcome_total fs + 1 ≤ outcome_total fs' := by
  simp only [process_artifact] at h
  obtain ⟨hc1, hc2, hc3, hc4⟩ := check_fields (pyFormat name [cur]) env fs
  split at h
  case isTrue hid =>
    injection h with h
    subst h
    refine ⟨hc1, ?_, Or.inl hc3, check_sentinel_outcome _ _ _ hid⟩
    rcases hc2 with hc2 | hc2
    · exact Or.inl hc2
    · exact Or.inr (Or.inl hc2)
  case isFalse hid =>
    have hct := check_found_testsuite (pyFormat name [cur]) env fs hid
    have hmono := check_outcome_mono (pyFormat name [cur]) env fs
    split at h
    case h_1 e heq => exact absurd h (by simp)
    case h_2 fs2 heq =>
      obtain ⟨hd1, hd2, hd3, hd4⟩ := run_download_fields _ _ _ _ _ heq
      have hd_out : outcome_total fs2
          = outcome_total (check_artifact_exists (pyFormat name [cur]) env fs).2 := by
        simp [outcome_total, hd1, hd2, hd3, hd4]
      split at h
      case isTrue hbh =>
        injection h with h
        subst h
        obtain ⟨hr1, hr2, hr3⟩ := run_compare_fields env (pyFormat name [cur] ++ "-report.log")
          (cur ++ "-no-baseline") ("./logs/" ++ (pyFormat name [cur] ++ "-report.log"))
          (cur ++ "-no-baseline") ("./logs/" ++ (pyFormat name [cur] ++ "-report.log"))
          ("./summaries/" ++ (pyFormat name [cur] ++ "-report-summary.md"))
          { fs2 with noBaseline := fs2.noBaseline ++ [pyFormat name [cur] ++ "-report.log"] }
        have hout := run_compare_outcome env (pyFormat name [cur] ++ "-report.log")
          (cur ++ "-no-baseline") ("./logs/" ++ (pyFormat name [cur] ++ "-report.log"))
          (cur ++ "-no-baseline") ("./logs/" ++ (pyFormat name [cur] ++ "-report.log"))
          ("./summaries/" ++ (pyFormat name [cur] ++ "-report-summary.md"))
          { fs2 with noBaseline := fs2.noBaseline ++ [pyFormat name [cur] ++ "-report.log"] }
        refine ⟨?_, ?_, ?_, ?_⟩
        · rw [hr1]
          show fs2.failedBuild = _ ∨ fs2.failedBuild = _
          rw [hd1]
          exact hc1
        · rcases hr3 with hr3 | ⟨err, hr3⟩
          · rw [hr3]
            show fs2.failedTestsuite = _ ∨ _
            rw [hd2, hct]
            exact Or.inl rfl
          · rw [hr3]
            show fs2.failedTestsuite ++ _ = _ ∨ _
            rw [hd2, hct]
            exact Or.inr (Or.inr ⟨err, rfl⟩)
        · rw [hr2]
          show fs2.noBaseline ++ _ = _ ∨ _
          rw [hd3, hc3]
          exact Or.inr rfl
        · have hup : outcome_total
              { fs2 with noBaseline := fs2.noBaseline ++ [pyFormat name [cur] ++ "-report.log"] }
              = outcome_total fs2 + 1 := by
            simp [outcome_total]
            omega
          omega
      case isFalse hbh =>
        split at h
        case h_1 e2 heq2 => exact absurd h (by simp)
        case h_2 fs4 heq2 =>
          injection h with h
          subst h
          obtain ⟨he1, he2, he3, he4⟩ := run_download_fields _ _ _ _ _ heq2
          have he_out : outcome_total fs4 = outcome_total fs2 := by
            simp [outcome_total, he1, he2, he3, he4]
          obtain ⟨hr1, hr2, hr3⟩ := run_compare_fields env (pyFormat name [cur] ++ "-report.log")
            (env.baseline (name ++ "-report.log")).1
            ("./logs/" ++ pyFormat (name ++ "-report.log") [(env.baseline (name ++ "-report.log")).1])
            cur ("./logs/" ++ (pyFormat name [cur] ++ "-report.log"))
            ("./summaries/" ++ (pyFormat name [cur] ++ "-report-summary.md")) fs4
          have hout := run_compare_outcome env (pyFormat name [cur] ++ "-report.log")
            (env.baseline (name ++ "-report.log")).1
            ("./logs/" ++ pyFormat (name ++ "-report.log") [(env.baseline (name ++ "-report.log")).1])
            cur ("./logs/" ++ (pyFormat name [cur] ++ "-report.log"))
            ("./summaries/" ++ (pyFormat name [cur] ++ "-report-summary.md")) fs4
          refine ⟨?_, ?_, ?_, ?_⟩
          · rw [hr1, he1, hd1]
            exact hc1
          · rcases hr3 with hr3 | ⟨err, hr3⟩
            · rw [hr3, he2, hd2, hct]
              exact Or.inl rfl
            · rw [hr3, he2, hd2, hct]
              exact Or.inr (Or.inr ⟨err, rfl⟩)
          · rw [hr2, he3, hd3, hc3]
            exact Or.inl rfl
          · omega

/-! Claim theorems. -/

set_option maxRecDepth 10000

/-- C1, counterexample: under `envC1` (both artifacts of the first template
present, baseline resolver exhausted, comparator failing), the artifact
`gcc-linux-rv32gc-ilp32d-abc123-non-multilib` yields TWO categorized
failure records — one `no_baseline.txt` line and one `failed_testsuite.txt`
line — not exactly one outcome, refuting "never both and never neither". -/
theorem C1_counterexample :
    ((download_and_compare_all_artifacts "abc123" envC1).toOption.map
        (fun fs => outcome_count fs "gcc-linux-rv32gc-ilp32d-abc123-non-multilib")) = some 2 ∧
    ((download_and_compare_all_artifacts "abc123" envC1).toOption.map
        (fun fs => outcome_count fs "gcc-linux-rv32gc-ilp32d-abc123-non-multilib")) ≠ some 1 := by
  constructor
  · decide
  · decide

/-- C1 (amended): every artifact name processed to completion by one loop
iteration of `download_and_compare_all_artifacts` yields AT LEAST one
outcome — a comparison summary or a categorized failure record, never
neither — though a summary and failure records can co-occur. -/
theorem C1_at_least_one_outcome (cur : String) (env : Env) (fs fs' : FS) (name : String)
    (h : process_artifact cur env fs name = .ok fs') :
    outcome_total fs + 1 ≤ outcome_total fs' :=
  (process_artifact_fields cur env fs fs' name h).2.2.2

theorem C1_at_least_one_outcome_witness :
    outcome_total ({} : FS) + 1 ≤ outcome_total fsC1 :=
  C1_at_least_one_outcome "abc123" envC1 ({} : FS) fsC1 tpl1 (by rfl)

/-- C2: when the current-hash report artifact exists on page 0 and the
baseline resolver returns a non-sentinel hash, the comparator is invoked
exactly once for this template, with arguments (baseline hash,
`./logs/<template with -report.log formatted with the baseline hash>`,
current hash, `./logs/<template formatted with current hash>-report.log`,
`./summaries/<template formatted with current hash>-report-summary.md`). -/
theorem C2_comparator_invocation (cur bh : String) (bid : Int) (env : Env) (fs : FS) (name : String)
    (hrep : env.store (pyFormat name [cur] ++ "-report.log") ≠ [])
    (hbase : env.baseline (name ++ "-report.log") = (bh, bid))
    (hb : bh ≠ "No valid hash")
    (hdl : ∀ n i, env.download n i = .ok ()) :
    (process_artifact cur env fs name).toOption.map FS.calls
      = some (fs.calls ++ [(bh, "./logs/" ++ pyFormat (name ++ "-report.log") [bh],
                            cur, "./logs/" ++ (pyFormat name [cur] ++ "-report.log"),
                            "./summaries/" ++ (pyFormat name [cur] ++ "-report-summary.md"))]) := by
  obtain ⟨i, rest, hpage⟩ :
      ∃ i rest, env.store (pyFormat name [cur] ++ "-report.log") = i :: rest := by
    cases h : env.store (pyFormat name [cur] ++ "-report.log") with
    | nil => exact absurd h hrep
    | cons i rest => exact ⟨i, rest, rfl⟩
  unfold process_artifact check_artifact_exists run_download run_compare
  simp only [hpage, hbase, hdl]
  rw [if_neg (by omega : ¬ ((i : Int) = -1))]
  rw [if_neg hb]
  cases hc : env.comparator bh ("./logs/" ++ pyFormat (name ++ "-report.log") [bh]) cur
      ("./logs/" ++ (pyFormat name [cur] ++ "-report.log"))
      ("./summaries/" ++ (pyFormat name [cur] ++ "-report-summary.md")) <;>
    simp [Except.toOption, hc] <;> (split <;> rfl)

theorem C2_comparator_invocation_witness :
    (process_artifact "abc123" env_all ({} : FS) tpl1).toOption.map FS.calls
      = some [("def456", "./logs/gcc-linux-rv32gc-ilp32d-def456-non-multilib-report.log",
               "abc123", "./logs/gcc-linux-rv32gc-ilp32d-abc123-non-multilib-report.log",
               "./summaries/gcc-linux-rv32gc-ilp32d-abc123-non-multilib-report-summary.md")] := by
  have h := C2_comparator_invocation "abc123" "def456" 9 env_all ({} : FS) tpl1
    (by decide) rfl (by decide) (fun n i => rfl)
  exact h.trans (by rfl)

/-- C3: when the current-hash report artifact exists but the baseline
resolver returns the sentinel, a bare line naming the current report
artifact is appended to `no_baseline.txt`, and the comparator is invoked
with base hash `<current>-no-baseline` and identical base and current log
paths (the current log compared against itself). -/
theorem C3_no_baseline_selfcompare (cur : String) (bid : Int) (env : Env) (fs : FS) (name : String)
    (hrep : env.store (pyFormat name [cur] ++ "-report.log") ≠ [])
    (hbase : env.baseline (name ++ "-report.log") = ("No valid hash", bid))
    (hdl : ∀ n i, env.download n i = .ok ()) :
    (process_artifact cur env fs name).toOption.map (fun f => (f.noBaseline, f.calls))
      = some (fs.noBaseline ++ [pyFormat name [cur] ++ "-report.log"],
              fs.calls ++ [(cur ++ "-no-baseline",
                            "./logs/" ++ (pyFormat name [cur] ++ "-report.log"),
                            cur ++ "-no-baseline",
                            "./logs/" ++ (pyFormat name [cur] ++ "-report.log"),
                            "./summaries/" ++ (pyFormat name [cur] ++ "-report-summary.md"))]) := by
  obtain ⟨i, rest, hpage⟩ :
      ∃ i rest, env.store (pyFormat name [cur] ++ "-report.log") = i :: rest := by
    cases h : env.store (pyFormat name [cur] ++ "-report.log") with
    | nil => exact absurd h hrep
    | cons i rest => exact ⟨i, rest, rfl⟩
  unfold process_artifact check_artifact_exists run_download run_compare
  simp only [hpage, hbase, hdl]
  rw [if_neg (by omega : ¬ ((i : Int) = -1))]
  cases hc : env.comparator (cur ++ "-no-baseline")
      ("./logs/" ++ (pyFormat name [cur] ++ "-report.log")) (cur ++ "-no-baseline")
      ("./logs/" ++ (pyFormat name [cur] ++ "-report.log"))
      ("./summaries/" ++ (pyFormat name [cur] ++ "-report-summary.md")) <;>
    simp [Except.toOption, hc] <;> (split <;> exact ⟨rfl, rfl⟩)

theorem C3_no_baseline_selfcompare_witness :
    (process_artifact "abc123" envC1 ({} : FS) tpl1).toOption.map (fun f => (f.noBaseline, f.calls))
      = some (["gcc-linux-rv32gc-ilp32d-abc123-non-multilib-report.log"],
              [("abc123-no-baseline",
                "./logs/gcc-linux-rv32gc-ilp32d-abc123-non-multilib-report.log",
                "abc123-no-baseline",
                "./logs/gcc-linux-rv32gc-ilp32d-abc123-non-multilib-report.log",
                "./summaries/gcc-linux-rv32gc-ilp32d-abc123-non-multilib-report-summary.md")]) := by
  have h := C3_no_baseline_selfcompare "abc123" (-1) envC1 ({} : FS) tpl1
    (by decide) rfl (fun n i => rfl)
  exact h.trans (by rfl)

/-- C4, counterexample: when neither artifact exists the appended
build-failure reason is `Check logs`, not the lowercase `check logs` the
claim states (same capitalization drift for the testsuite reason). -/
theorem C4_counterexample :
    (check_artifact_exists "X" env_empty ({} : FS)).2.failedBuild = ["X|Check logs"] ∧
    (check_artifact_exists "X" env_empty ({} : FS)).2.failedBuild ≠ ["X|check logs"] := by
  constructor
  · decide
  · decide

/-- C4 (amended): `check_artifact_exists` follows the three-case policy with
the reason strings as capitalized in the code: if neither artifact is on
page 0, exactly one build-failure record with reason `Check logs` is
appended and `-1` is returned; if the build artifact is found but the
report is not, exactly one testsuite-failure record with reason
`Cannot find testsuite artifact` is appended and `-1` is returned; if both
are found, the report artifact's id is returned and no record is appended. -/
theorem C4_policy (name : String) (env : Env) (fs : FS) :
    (env.store name = [] → env.store (name ++ "-report.log") = [] →
      check_artifact_exists name env fs
        = (-1, { fs with failedBuild := fs.failedBuild ++ [name ++ "|Check logs"] })) ∧
    (env.store name ≠ [] → env.store (name ++ "-report.log") = [] →
      check_artifact_exists name env fs
        = (-1, { fs with failedTestsuite :=
                   fs.failedTestsuite ++ [name ++ "|Cannot find testsuite artifact"] })) ∧
    (∀ i rest, env.store name ≠ [] → env.store (name ++ "-report.log") = i :: rest →
      check_artifact_exists name env fs = ((i : Int), fs)) := by
  refine ⟨?_, ?_, ?_⟩
  · intro h1 h2
    simp [check_artifact_exists, h1, h2]
  · intro h1 h2
    simp [check_artifact_exists, h2, List.length_eq_zero, h1]
  · intro i rest h1 h2
    simp [check_artifact_exists, h2, List.length_eq_zero, h1]

theorem C4_policy_witness :
    check_artifact_exists "X" env_empty ({} : FS)
      = (-1, { ({} : FS) with failedBuild := ({} : FS).failedBuild ++ ["X" ++ "|Check logs"] }) :=
  (C4_policy "X" env_empty ({} : FS)).1 rfl rfl

/-- C5: inside `download_artifact` every failure is fatal and propagates: a
raised network error propagates as-is; on a non-success HTTP status the
body is the endpoint's error document, not a zip archive, so extraction
raises `BadZipFile` (the status code itself is never checked); and a valid
archive missing the expected log file makes the `os.rename` step raise
`FileNotFoundError`. No handler exists in the function, so nothing is
swallowed. -/
theorem C5_download_errors_propagate (name : String) (fetch : Except String HttpResponse) :
    (∀ e, fetch = .error e → download_artifact name fetch = .error e) ∧
    (∀ r body, fetch = .ok r → r.status ≠ 200 → r.content = .errorDoc body →
       download_artifact name fetch = .error "BadZipFile: File is not a zip file") ∧
    (∀ r entries, fetch = .ok r → r.content = .zipArchive entries → name ∉ entries →
       download_artifact name fetch = .error ("FileNotFoundError: " ++ name)) := by
  refine ⟨?_, ?_, ?_⟩
  · intro e he
    rw [he]
    rfl
  · intro r body hf hst hc
    rw [hf]
    simp [download_artifact, zip_extractall, hc]
  · intro r entries hf hc hmem
    rw [hf]
    simp [download_artifact, zip_extractall, hc, hmem]

theorem C5_download_errors_propagate_witness :
    download_artifact "a-report.log" (Except.error "ConnectionError")
      = Except.error "ConnectionError" :=
  (C5_download_errors_propagate "a-report.log" (Except.error "ConnectionError")).1
    "ConnectionError" rfl

/-- C6, counterexample: under `envC1` the line appended to
`no_baseline.txt` is the bare report artifact name, which contains no `|`
and hence is not of the claimed `<artifact-name>|<reason>` form. -/
theorem C6_counterexample :
    ((download_and_compare_all_artifacts "abc123" envC1).toOption.map FS.noBaseline
       = some ["gcc-linux-rv32gc-ilp32d-abc123-non-multilib-report.log"]) ∧
    ¬ pipeForm "gcc-linux-rv32gc-ilp32d-abc123-non-multilib-report.log" := by
  constructor
  · decide
  · intro hp
    have hmem := pipeForm_pipe_mem _ hp
    revert hmem
    decide

/-- C6 (amended): lines appended to `failed_build.txt` and
`failed_testsuite.txt` have the `<artifact-name>|<reason>` form, but lines
appended to `no_baseline.txt` are the bare current report artifact name,
with no reason field. -/
theorem C6_line_forms (cur : String) (env : Env) (fs fs' : FS) (name : String)
    (h : process_artifact cur env fs name = .ok fs') :
    (∀ l ∈ fs'.failedBuild, l ∈ fs.failedBuild ∨ pipeForm l) ∧
    (∀ l ∈ fs'.failedTestsuite, l ∈ fs.failedTestsuite ∨ pipeForm l) ∧
    (∀ l ∈ fs'.noBaseline, l ∈ fs.noBaseline ∨ l = pyFormat name [cur] ++ "-report.log") := by
  obtain ⟨h1, h2, h3, _⟩ := process_artifact_fields cur env fs fs' name h
  refine ⟨?_, ?_, ?_⟩
  · intro l hl
    rcases h1 with h1 | h1
    · exact Or.inl (h1 ▸ hl)
    · rw [h1] at hl
      rcases List.mem_append.mp hl with hl | hl
      · exact Or.inl hl
      · rcases List.mem_singleton.mp hl with rfl
        exact Or.inr ⟨pyFormat name [cur], "Check logs", by rw [String.append_assoc]; rfl⟩
  · intro l hl
    rcases h2 with h2 | h2 | ⟨err, h2⟩
    · exact Or.inl (h2 ▸ hl)
    · rw [h2] at hl
      rcases List.mem_append.mp hl with hl | hl
      · exact Or.inl hl
      · rcases List.mem_singleton.mp hl with rfl
        exact Or.inr ⟨pyFormat name [cur], "Cannot find testsuite artifact",
          by rw [String.append_assoc]; rfl⟩
    · rw [h2] at hl
      rcases List.mem_append.mp hl with hl | hl
      · exact Or.inl hl
      · rcases List.mem_singleton.mp hl with rfl
        exact Or.inr ⟨pyFormat name [cur] ++ "-report.log", err, rfl⟩
  · intro l hl
    rcases h3 with h3 | h3
    · exact Or.inl (h3 ▸ hl)
    · rw [h3] at hl
      rcases List.mem_append.mp hl with hl | hl
      · exact Or.inl hl
      · exact Or.inr (List.mem_singleton.mp hl)

theorem C6_line_forms_witness :
    "gcc-linux-rv32gc-ilp32d-abc123-non-multilib-report.log" ∈ (({} : FS)).noBaseline ∨
    "gcc-linux-rv32gc-ilp32d-abc123-non-multilib-report.log"
      = pyFormat tpl1 ["abc123"] ++ "-report.log" :=
  (C6_line_forms "abc123" envC1 ({} : FS) fsC1 tpl1 (by rfl)).2.2 _ (by decide)

/-- C7: the generator's output equals the full cross-product of the
configuration table minus exactly the combinations pairing the 32-bit
architecture pattern with multilib mode; in particular no excluded
combination's rendering appears in the output. -/
theorem C7_cross_product_minus_rv32_multilib :
    get_possible_artifact_names = spec_artifact_names ∧
    (all_combinations.all fun t =>
        !(containsSub "rv32".data t.2.1.data && t.2.2 == "multilib") ||
          !(arch_extensions.any fun ext =>
              get_possible_artifact_names.contains (render_combination t ext))) = true := by
  constructor
  · decide
  · decide

/-- C8: every template returned by `get_possible_artifact_names` contains
exactly one unfilled placeholder, even though each underlying architecture
pattern starts with two (one is filled with the extension, one left for
the commit hash). -/
theorem C8_single_placeholder :
    (get_possible_artifact_names.all fun s => countPlaceholders s.data == 1) = true ∧
    (arch.all fun j => countPlaceholders j.data == 2) = true := by
  constructor
  · decide
  · decide

/-- C9: when the comparator fails (with the error class the orchestrator
catches), the loop iteration still completes (it does not abort the run),
a `failed_testsuite.txt` line `<artifact>|<error text>` is appended, and no
summary is recorded; the fold over the remaining templates therefore
continues. -/
theorem C9_comparator_error_caught (cur err : String) (env : Env) (fs : FS) (name : String)
    (hrep : env.store (pyFormat name [cur] ++ "-report.log") ≠ [])
    (hdl : ∀ n i, env.download n i = .ok ())
    (hcmp : ∀ a b c d e, env.comparator a b c d e = .error err) :
    (process_artifact cur env fs name).toOption.map (fun f => (f.failedTestsuite, f.summaries))
      = some (fs.failedTestsuite ++ [(pyFormat name [cur] ++ "-report.log") ++ "|" ++ err],
              fs.summaries) := by
  obtain ⟨i, rest, hpage⟩ :
      ∃ i rest, env.store (pyFormat name [cur] ++ "-report.log") = i :: rest := by
    cases h : env.store (pyFormat name [cur] ++ "-report.log") with
    | nil => exact absurd h hrep
    | cons i rest => exact ⟨i, rest, rfl⟩
  unfold process_artifact check_artifact_exists run_download run_compare
  simp only [hpage, hdl, hcmp]
  rw [if_neg (by omega : ¬ ((i : Int) = -1))]
  split <;> simp [Except.toOption, hcmp] <;> (split <;> exact ⟨rfl, rfl⟩)

theorem C9_comparator_error_caught_witness :
    (process_artifact "abc123" envC1 ({} : FS) tpl1).toOption.map
        (fun f => (f.failedTestsuite, f.summaries))
      = some (["gcc-linux-rv32gc-ilp32d-abc123-non-multilib-report.log|boom"], []) := by
  have h := C9_comparator_error_caught "abc123" "boom" envC1 ({} : FS) tpl1
    (by decide) (fun n i => rfl) (fun a b c d e => rfl)
  exact h.trans (by rfl)

/-- C10: when the build artifact is absent on page 0 but the report
artifact is present, `check_artifact_exists` appends a build-failure
record yet returns the report artifact's id, which differs from the `-1`
sentinel, so the orchestrator proceeds to download and compare. -/
theorem C10_build_missing_report_found (name : String) (env : Env) (fs : FS)
    (i : Nat) (rest : List Nat)
    (hbuild : env.store name = [])
    (hrep : env.store (name ++ "-report.log") = i :: rest) :
    check_artifact_exists name env fs
      = ((i : Int), { fs with failedBuild := fs.failedBuild ++ [name ++ "|Check logs"] }) ∧
    ((i : Int) ≠ -1) := by
  constructor
  · simp [check_artifact_exists, hbuild, hrep]
  · omega

theorem C10_build_missing_report_found_witness :
    check_artifact_exists "X" envC10 ({} : FS)
      = (((5 : Nat) : Int),
         { ({} : FS) with failedBuild := ({} : FS).failedBuild ++ ["X" ++ "|Check logs"] }) ∧
    (((5 : Nat) : Int) ≠ -1) :=
  C10_build_missing_report_found "X" envC10 ({} : FS) 5 [] (by decide) (by decide)

end DownloadArtifacts
